import Mathlib

/-!
Verification of the mahjongAI analysis/plotting pipelines.

The repository consists of three scripts:
  * `res.py`   — prints aggregate statistics for the paper (report pipeline);
  * `plots.py` — renders the paper figures (chart pipeline);
  * `viz.py`   — renders draw-game visualizations and a text summary.

This file gives a shallow embedding of the data-touching parts of those
scripts over exact rational arithmetic (`ℚ`, with `ℝ` only where the code
takes a square root) and proves or refutes the specification claims.

Pandas/NumPy specifics that matter to the claims are modelled explicitly:
division of NumPy integer scalars by zero does not raise; it produces
`inf`/`-inf`/`nan` floats, modelled by the `PyFloat` type below.  Python's
`min`/`max` on an empty sequence raises `ValueError`, modelled by `Option`
(`none` = the exception).
-/

/-- One row of `res/player_comparison_results.csv` (the primary results
table read by `res.py` and `plots.py`).  Count-valued columns are `ℕ`,
percentage/average columns are `ℚ`. -/
structure ResultRow where
  player1_type : String
  player2_type : String
  config_name : String
  p1_wins : ℕ
  p2_wins : ℕ
  total_games : ℕ
  decisive_games : ℕ
  p1_win_rate_decisive : ℚ
  p2_win_rate_decisive : ℚ
  draw_pct : ℚ
  draws : ℕ
  draw_pattern_overlap_pct : ℚ
  reshuffle_pct : ℚ
  games_reshuffled : ℕ
  wins_after_reshuffle : ℕ
  draw_both_high_progress : ℕ
  draw_both_stuck : ℕ
  draw_similar_progress : ℕ
  draw_p1_stuck_p2_ahead : ℕ
  draw_p2_stuck_p1_ahead : ℕ
  draw_avg_p1_progress : ℚ
  draw_avg_p2_progress : ℚ
deriving Repr, DecidableEq

/-- Result of a NumPy float computation: a finite value, a signed
infinity, or NaN.  NumPy scalar division by zero warns and yields one of
the non-finite values instead of raising. -/
inductive PyFloat where
  | finite (q : ℚ)
  | posInf
  | negInf
  | nan
deriving Repr, DecidableEq

/-- NumPy true division of two (integer- or float-valued) scalars:
`x / 0` is `inf`, `-inf` or `nan` according to the sign of `x`; otherwise
the exact quotient. -/
def npDiv (x y : ℚ) : PyFloat :=
  if y = 0 then
    if 0 < x then PyFloat.posInf else if x < 0 then PyFloat.negInf else PyFloat.nan
  else PyFloat.finite (x / y)

/-- Multiplication of a NumPy scalar by a finite constant
(IEEE semantics: `inf * c` keeps/flips sign for `c ≠ 0`, `inf * 0 = nan`,
`nan * c = nan`). -/
def pyMul (a : PyFloat) (c : ℚ) : PyFloat :=
  match a with
  | PyFloat.finite q => PyFloat.finite (q * c)
  | PyFloat.posInf => if 0 < c then PyFloat.posInf else if c < 0 then PyFloat.negInf else PyFloat.nan
  | PyFloat.negInf => if 0 < c then PyFloat.negInf else if c < 0 then PyFloat.posInf else PyFloat.nan
  | PyFloat.nan => PyFloat.nan

/-- The draw category labels of `viz.py` `plot_symmetric_analysis`
(`df['draw_type']`), including the `'Unknown'` value the column is
initialized with. -/
inductive DrawType where
  | unknown
  | bothStuck
  | bothMid
  | bothHigh
  | p1Ahead
  | p2Ahead
deriving Repr, DecidableEq

/-- `viz.py` lines 247–253: sequential `.loc` mask assignments over the
`draw_type` column, starting from `'Unknown'`; a later mask overrides an
earlier one for rows matching both. -/
def drawType (p1 p2 : ℚ) : DrawType :=
  let t1 := if p1 < 50 ∧ p2 < 50 then DrawType.bothStuck else DrawType.unknown
  let t2 := if 50 ≤ p1 ∧ p1 < 70 ∧ 50 ≤ p2 ∧ p2 < 70 then DrawType.bothMid else t1
  let t3 := if 70 ≤ p1 ∧ 70 ≤ p2 then DrawType.bothHigh else t2
  let t4 := if 70 ≤ p1 ∧ p2 < 70 then DrawType.p1Ahead else t3
  if p1 < 70 ∧ 70 ≤ p2 then DrawType.p2Ahead else t4

/-- Number of the five `viz.py` draw-category masks (lines 248–253) that a
progress pair satisfies. -/
def catCount (p1 p2 : ℚ) : ℕ :=
  (if p1 < 50 ∧ p2 < 50 then 1 else 0) +
  (if 50 ≤ p1 ∧ p1 < 70 ∧ 50 ≤ p2 ∧ p2 < 70 then 1 else 0) +
  (if 70 ≤ p1 ∧ 70 ≤ p2 then 1 else 0) +
  (if 70 ≤ p1 ∧ p2 < 70 then 1 else 0) +
  (if p1 < 70 ∧ 70 ≤ p2 then 1 else 0)

/-- **C1** (counterexample).  The claim says the five draw categories are
collectively exhaustive over `[0,100]²`.  The progress pair `(60, 30)`
lies in the square yet satisfies none of the five masks: `viz.py` leaves
its `draw_type` as `'Unknown'`. -/
theorem catCount_not_exhaustive_at_60_30 :
    (0 : ℚ) ≤ 60 ∧ (60 : ℚ) ≤ 100 ∧ (0 : ℚ) ≤ 30 ∧ (30 : ℚ) ≤ 100 ∧
      catCount 60 30 = 0 ∧ drawType 60 30 = DrawType.unknown := by
  refine ⟨by norm_num, by norm_num, by norm_num, by norm_num, ?_, ?_⟩ <;>
    norm_num [catCount, drawType]

/-- **C1** (amended).  The five draw categories of
`viz.py` `plot_symmetric_analysis` are mutually exclusive (at most one
mask matches any progress pair), but they are not exhaustive: the
classifier returns `'Unknown'` exactly when no mask matches. -/
theorem drawType_mutually_exclusive (p1 p2 : ℚ) :
    catCount p1 p2 ≤ 1 ∧ (drawType p1 p2 = DrawType.unknown ↔ catCount p1 p2 = 0) := by
  have h5070 : ∀ x : ℚ, x < 50 → x < 70 := fun x h => h.trans (by norm_num)
  have h7050 : ∀ x : ℚ, 70 ≤ x → 50 ≤ x := fun x h => le_trans (by norm_num) h
  rcases lt_or_le p1 50 with a1 | a1
  · have b1 := h5070 p1 a1
    rcases lt_or_le p2 50 with a2 | a2
    · have b2 := h5070 p2 a2
      simp [catCount, drawType, a1, a2, b1, b2, not_le.mpr a1, not_le.mpr a2,
        not_le.mpr b1, not_le.mpr b2]
    · rcases lt_or_le p2 70 with b2 | b2
      · simp [catCount, drawType, a1, b2, not_lt.mpr a2, not_le.mpr a1,
          not_le.mpr b1, not_le.mpr b2]
      · simp [catCount, drawType, a1, b1, b2, not_lt.mpr a2, not_le.mpr a1,
          not_le.mpr b1, not_lt.mpr (h7050 p2 b2)]
  · rcases lt_or_le p1 70 with b1 | b1
    · rcases lt_or_le p2 50 with a2 | a2
      · have b2 := h5070 p2 a2
        simp [catCount, drawType, a2, b1, b2, not_lt.mpr a1, not_le.mpr a2,
          not_le.mpr b1, not_le.mpr b2]
      · rcases lt_or_le p2 70 with b2 | b2
        · simp [catCount, drawType, a1, a2, b1, b2, not_lt.mpr a1, not_lt.mpr a2,
            not_le.mpr b1, not_le.mpr b2]
        · simp [catCount, drawType, b1, b2, not_lt.mpr a1, not_lt.mpr (h7050 p2 b2),
            not_le.mpr b1]
    · rcases lt_or_le p2 50 with a2 | a2
      · have b2 := h5070 p2 a2
        simp [catCount, drawType, a2, b1, b2, not_lt.mpr a1, not_lt.mpr (h7050 p1 b1),
          not_le.mpr a2, not_le.mpr b2]
      · rcases lt_or_le p2 70 with b2 | b2
        · simp [catCount, drawType, a2, b1, b2, not_lt.mpr a1, not_lt.mpr a2,
            not_lt.mpr (h7050 p1 b1), not_le.mpr b2]
        · simp [catCount, drawType, b1, b2, not_lt.mpr b1, not_lt.mpr b2,
            not_lt.mpr (h7050 p1 b1), not_lt.mpr (h7050 p2 b2),
            not_lt.mpr a1, not_lt.mpr a2]

/-- **C1** (witness): the amended classification facts evaluated at the
concrete pair `(60, 30)`. -/
theorem drawType_mutually_exclusive_witness :
    catCount 60 30 ≤ 1 ∧ (drawType 60 30 = DrawType.unknown ↔ catCount 60 30 = 0) :=
  drawType_mutually_exclusive 60 30

/-- **C2**.  Threshold boundaries of the draw classifier are inclusive on
the lower bound: a side at exactly `70` counts as high/ahead (never as a
below-70 side), a side at exactly `50` never counts toward "both stuck",
`(50, 50)` is "both mid", and the spec's example `(70, 69.9)` is
classified "P1 Ahead". -/
theorem drawType_boundary_inclusive :
    (∀ q : ℚ, q < 70 → drawType 70 q = DrawType.p1Ahead) ∧
    (∀ q : ℚ, 70 ≤ q → drawType 70 q = DrawType.bothHigh) ∧
    (∀ q : ℚ, q < 70 → drawType q 70 = DrawType.p2Ahead) ∧
    (∀ q : ℚ, drawType 50 q ≠ DrawType.bothStuck) ∧
    (∀ q : ℚ, drawType q 50 ≠ DrawType.bothStuck) ∧
    drawType 50 50 = DrawType.bothMid ∧
    drawType 70 (699 / 10) = DrawType.p1Ahead := by
  refine ⟨?_, ?_, ?_, ?_, ?_, ?_, ?_⟩
  · intro q h
    norm_num [drawType, h, not_le.mpr h]
  · intro q h
    norm_num [drawType, h, not_lt.mpr h]
  · intro q h
    norm_num [drawType, h, not_le.mpr h]
  · intro q
    rcases lt_or_le q 50 with a | a
    · norm_num [drawType, a, a.trans (by norm_num : (50 : ℚ) < 70),
        not_le.mpr a, not_le.mpr (a.trans (by norm_num : (50 : ℚ) < 70))] <;> decide
    · rcases lt_or_le q 70 with b | b
      · norm_num [drawType, a, b, not_lt.mpr a, not_le.mpr b] <;> decide
      · norm_num [drawType, b, not_lt.mpr b,
          le_trans (by norm_num : (50 : ℚ) ≤ 70) b,
          not_lt.mpr (le_trans (by norm_num : (50 : ℚ) ≤ 70) b)] <;> decide
  · intro q
    rcases lt_or_le q 50 with a | a
    · norm_num [drawType, a, a.trans (by norm_num : (50 : ℚ) < 70),
        not_le.mpr a, not_le.mpr (a.trans (by norm_num : (50 : ℚ) < 70))] <;> decide
    · rcases lt_or_le q 70 with b | b
      · norm_num [drawType, a, b, not_lt.mpr a, not_le.mpr b] <;> decide
      · norm_num [drawType, b, not_lt.mpr b,
          le_trans (by norm_num : (50 : ℚ) ≤ 70) b,
          not_lt.mpr (le_trans (by norm_num : (50 : ℚ) ≤ 70) b)] <;> decide
  · norm_num [drawType]
  · norm_num [drawType]

/-- **C2** (witness): the boundary facts evaluated at concrete inputs. -/
theorem drawType_boundary_inclusive_witness :
    drawType 70 60 = DrawType.p1Ahead ∧
    drawType 70 80 = DrawType.bothHigh ∧
    drawType 60 70 = DrawType.p2Ahead ∧
    drawType 50 30 ≠ DrawType.bothStuck ∧
    drawType 30 50 ≠ DrawType.bothStuck ∧
    drawType 50 50 = DrawType.bothMid ∧
    drawType 70 (699 / 10) = DrawType.p1Ahead :=
  ⟨drawType_boundary_inclusive.1 60 (by norm_num),
   drawType_boundary_inclusive.2.1 80 (by norm_num),
   drawType_boundary_inclusive.2.2.1 60 (by norm_num),
   drawType_boundary_inclusive.2.2.2.1 30,
   drawType_boundary_inclusive.2.2.2.2.1 30,
   drawType_boundary_inclusive.2.2.2.2.2.1,
   drawType_boundary_inclusive.2.2.2.2.2.2⟩

/-- `res.py` line 12 / `plots.py` line 34: filter the table to the
"neither nervous" baseline configuration. -/
def neitherRows (rows : List ResultRow) : List ResultRow :=
  rows.filter (fun r => r.config_name == "neither")

/-- Pairing lookup used throughout both pipelines: the first row of the
given (already configuration-filtered) collection whose `player1_type`
and `player2_type` match, if any (`df[mask]` followed by `.iloc[0]`
guarded by `len(...) > 0`). -/
def findPairing (rows : List ResultRow) (p1 p2 : String) : Option ResultRow :=
  rows.find? (fun r => r.player1_type == p1 && r.player2_type == p2)

/-- `res.py` SECTION 4.3.2 (lines 302–307): one derived draw-characteristic
percentage, `(count / total_draws) * 100`, computed with NumPy scalar
semantics and no zero guard. -/
def progressPct (count draws : ℚ) : PyFloat :=
  pyMul (npDiv count draws) 100

/-- The "both high (≥70%)" percentage of `res.py` line 302. -/
def bothHighPct (r : ResultRow) : PyFloat :=
  progressPct (r.draw_both_high_progress : ℚ) (r.draws : ℚ)

/-- The "both stuck (<70%)" percentage of `res.py` line 303. -/
def bothStuckPct (r : ResultRow) : PyFloat :=
  progressPct (r.draw_both_stuck : ℚ) (r.draws : ℚ)

/-- The "similar (within 15%)" percentage of `res.py` line 304. -/
def similarPct (r : ResultRow) : PyFloat :=
  progressPct (r.draw_similar_progress : ℚ) (r.draws : ℚ)

/-- The "asymmetric" percentage of `res.py` lines 306–307: the two
each-side-ahead counts are summed first. -/
def asymmetricPct (r : ResultRow) : PyFloat :=
  progressPct ((r.draw_p1_stuck_p2_ahead : ℚ) + (r.draw_p2_stuck_p1_ahead : ℚ)) (r.draws : ℚ)

/-- `res.py` SECTION 4.3.3 (lines 345–353): the reshuffle-resolution
computation.  The whole block is guarded by
`if row['games_reshuffled'] > 0:`; when the guard fails nothing is
computed or printed (`none`).  Otherwise the resolution rate
`wins_after_reshuffle / games_reshuffled * 100` and its complement
`100 - resolution` are produced. -/
def reshuffleResolution (r : ResultRow) : Option (ℚ × ℚ) :=
  if 0 < r.games_reshuffled then
    some ((r.wins_after_reshuffle : ℚ) / (r.games_reshuffled : ℚ) * 100,
          100 - (r.wins_after_reshuffle : ℚ) / (r.games_reshuffled : ℚ) * 100)
  else none

/-- The three strategic pairings of `res.py` SECTION 4.3.1 (lines 251–255). -/
def strategicPairs : List (String × String) :=
  [("bayesian", "bayesian"), ("bayesian", "greedy"), ("greedy", "greedy")]

/-- `res.py` lines 257–264: the overlap values collected for the strategic
pairings.  A pairing with no matching row is skipped silently (no zero
default is appended and no warning is printed). -/
def overlapsStrategic (rows : List ResultRow) : List ℚ :=
  strategicPairs.filterMap
    (fun pq => (findPairing rows pq.1 pq.2).map (fun r => r.draw_pattern_overlap_pct))

/-- Python's `min` over a list; `none` models the `ValueError` raised on
an empty sequence. -/
def pyMin : List ℚ → Option ℚ
  | [] => none
  | x :: xs => some (xs.foldl min x)

/-- Python's `max` over a list; `none` models the `ValueError` raised on
an empty sequence. -/
def pyMax : List ℚ → Option ℚ
  | [] => none
  | x :: xs => some (xs.foldl max x)

/-- `res.py` line 266: `min(overlaps_strategic)` / `max(overlaps_strategic)`
for the printed range.  `none` means the script dies with `ValueError`. -/
def sec431Range (rows : List ResultRow) : Option (ℚ × ℚ) :=
  match pyMin (overlapsStrategic rows), pyMax (overlapsStrategic rows) with
  | some a, some b => some (a, b)
  | _, _ => none

/-- `res.py` line 129: the Bayesian vs Pure Random rows across all
configurations. -/
def bprRows (rows : List ResultRow) : List ResultRow :=
  rows.filter (fun r => r.player1_type == "bayesian" && r.player2_type == "pure_random")

/-- `res.py` line 130: `bpr_all['p1_wins'].sum()`. -/
def totalP1Wins (rows : List ResultRow) : ℕ :=
  ((bprRows rows).map (fun r => r.p1_wins)).sum

/-- `res.py` line 131: `bpr_all['p2_wins'].sum()`. -/
def totalP2Wins (rows : List ResultRow) : ℕ :=
  ((bprRows rows).map (fun r => r.p2_wins)).sum

/-- `res.py` line 143: the pooled win rate
`(total_p1_wins / (total_p1_wins + total_p2_wins)) * 100`, printed with
NumPy scalar semantics and no zero guard (the `if` on line 134 only
guards the p-value). -/
def pooledWinRate (rows : List ResultRow) : PyFloat :=
  pyMul (npDiv (totalP1Wins rows : ℚ) ((totalP1Wins rows : ℚ) + (totalP2Wins rows : ℚ))) 100

/-- Modelled from the spec: `scipy.stats.binomtest(w, n, p=0.5,
alternative='greater').pvalue` (`res.py` lines 40, 116, 135, …).  The
scipy implementation is not part of this repository; per the spec it is
the exact one-sided binomial tail probability
`P(X ≥ w)` for `X ~ Binomial(n, 1/2)`. -/
def binomPValueGreater (w n : ℕ) : ℚ :=
  (∑ k in Finset.Icc w n, (n.choose k : ℚ)) / 2 ^ n

/-- `res.py` lines 134–137: the pooled p-value is guarded — when the
pooled decisive total is zero it is set to `1.0` instead of calling
`binomtest`. -/
def pooledPValue (rows : List ResultRow) : ℚ :=
  if 0 < totalP1Wins rows + totalP2Wins rows then
    binomPValueGreater (totalP1Wins rows) (totalP1Wins rows + totalP2Wins rows)
  else 1

/-- A baseline "neither nervous" row with all numeric fields zero, used
to build the concrete rows appearing in counterexamples and witnesses. -/
def baseRow : ResultRow where
  player1_type := ""
  player2_type := ""
  config_name := "neither"
  p1_wins := 0
  p2_wins := 0
  total_games := 0
  decisive_games := 0
  p1_win_rate_decisive := 0
  p2_win_rate_decisive := 0
  draw_pct := 0
  draws := 0
  draw_pattern_overlap_pct := 0
  reshuffle_pct := 0
  games_reshuffled := 0
  wins_after_reshuffle := 0
  draw_both_high_progress := 0
  draw_both_stuck := 0
  draw_similar_progress := 0
  draw_p1_stuck_p2_ahead := 0
  draw_p2_stuck_p1_ahead := 0
  draw_avg_p1_progress := 0
  draw_avg_p2_progress := 0

/-- A row whose draw count is zero but whose "both high" sub-count is
positive, and which never reshuffled while recording reshuffle wins. -/
def zeroDenomRow : ResultRow :=
  { baseRow with draws := 0, draw_both_high_progress := 5,
                 games_reshuffled := 0, wins_after_reshuffle := 5 }

/-- A row with four reshuffled games, one of which resolved. -/
def reshuffledRow : ResultRow :=
  { baseRow with games_reshuffled := 4, wins_after_reshuffle := 1 }

/-- A Bayesian vs Pure Random row with three wins and one loss. -/
def bprRow : ResultRow :=
  { baseRow with player1_type := "bayesian", player2_type := "pure_random",
                 p1_wins := 3, p2_wins := 1 }

/-- A Bayesian self-play row with a 55% draw pattern overlap. -/
def bbRow : ResultRow :=
  { baseRow with player1_type := "bayesian", player2_type := "bayesian",
                 draw_pattern_overlap_pct := 55 }

/-- A row with four draws, one of them "both high". -/
def fourDrawsRow : ResultRow :=
  { baseRow with draws := 4, draw_both_high_progress := 1 }

/-- **C3** (counterexample).  The claim says the draw-characteristic
percentages report 0% when the row's draw count is zero.  On a row with
`draws = 0` and `draw_both_high_progress = 5` the unguarded NumPy
division `(5 / 0) * 100` in `res.py` line 302 yields `inf`, not `0`. -/
theorem bothHighPct_zero_draws_counterexample :
    bothHighPct zeroDenomRow = PyFloat.posInf ∧
      PyFloat.posInf ≠ PyFloat.finite 0 := by
  constructor
  · norm_num [bothHighPct, progressPct, npDiv, pyMul, zeroDenomRow, baseRow]
  · simp

/-- **C3** (amended).  The SECTION 4.3.2 percentage computation has no
zero guard: with a nonzero draw count it is the exact percentage, but
with a zero draw count it is `inf` (positive sub-count) or `nan` (zero
sub-count) under NumPy semantics — it never reports `0%`, though no
exception is raised. -/
theorem progressPct_division_behavior (r : ResultRow) :
    (r.draws ≠ 0 →
        bothHighPct r =
          PyFloat.finite ((r.draw_both_high_progress : ℚ) / (r.draws : ℚ) * 100)) ∧
    (r.draws = 0 → 0 < r.draw_both_high_progress → bothHighPct r = PyFloat.posInf) ∧
    (r.draws = 0 → r.draw_both_high_progress = 0 → bothHighPct r = PyFloat.nan) := by
  refine ⟨fun h => ?_, fun h hc => ?_, fun h hc => ?_⟩
  · have h' : ((r.draws : ℚ)) ≠ 0 := Nat.cast_ne_zero.mpr h
    simp [bothHighPct, progressPct, npDiv, pyMul, h']
  · have hc' : (0 : ℚ) < (r.draw_both_high_progress : ℚ) := by exact_mod_cast hc
    simp [bothHighPct, progressPct, npDiv, pyMul, h, hc']
  · simp [bothHighPct, progressPct, npDiv, pyMul, h, hc]

/-- **C3** (witness): the three behaviors at concrete rows
(`1/4` of draws both-high → `25%`; zero draws with positive sub-count →
`inf`; zero draws with zero sub-count → `nan`). -/
theorem progressPct_division_behavior_witness :
    bothHighPct fourDrawsRow = PyFloat.finite 25 ∧
    bothHighPct zeroDenomRow = PyFloat.posInf ∧
    bothHighPct baseRow = PyFloat.nan := by
  refine ⟨?_, ?_, ?_⟩
  · have h := (progressPct_division_behavior fourDrawsRow).1
      (by norm_num [fourDrawsRow, baseRow])
    norm_num [fourDrawsRow, baseRow] at h
    exact h
  · exact (progressPct_division_behavior zeroDenomRow).2.1
      (by norm_num [zeroDenomRow, baseRow]) (by norm_num [zeroDenomRow, baseRow])
  · exact (progressPct_division_behavior baseRow).2.2 rfl rfl

/-- **C4** (counterexample).  The claim says a row with
`games_reshuffled = 0` yields a resolution rate of `0%`.  `res.py`
line 345 guards the whole block with `if row['games_reshuffled'] > 0:`,
so on such a row nothing is computed at all — there is no `0%` result. -/
theorem reshuffleResolution_zero_counterexample :
    reshuffleResolution zeroDenomRow = none ∧
      (none : Option (ℚ × ℚ)) ≠ some (0, 100) := by
  constructor
  · norm_num [reshuffleResolution, zeroDenomRow, baseRow]
  · simp

/-- **C4** (amended).  When `games_reshuffled > 0` the block produces the
resolution rate `wins_after_reshuffle / games_reshuffled * 100` and its
complement (the two always sum to 100); when `games_reshuffled = 0` the
block is skipped entirely, producing no rate (and hence no division
fault). -/
theorem reshuffleResolution_behavior (r : ResultRow) :
    (0 < r.games_reshuffled →
        reshuffleResolution r =
          some ((r.wins_after_reshuffle : ℚ) / (r.games_reshuffled : ℚ) * 100,
                100 - (r.wins_after_reshuffle : ℚ) / (r.games_reshuffled : ℚ) * 100)) ∧
    (r.games_reshuffled = 0 → reshuffleResolution r = none) ∧
    (∀ x : ℚ × ℚ, reshuffleResolution r = some x → x.1 + x.2 = 100) := by
  refine ⟨fun h => ?_, fun h => ?_, fun x hx => ?_⟩
  · simp [reshuffleResolution, h]
  · simp [reshuffleResolution, h]
  · rw [reshuffleResolution] at hx
    split_ifs at hx
    simp only [Option.some.injEq] at hx
    subst hx
    simp

/-- **C4** (witness): a row with 4 reshuffled games and 1 resolution gives
`(25%, 75%)`; a row with no reshuffled games gives no output. -/
theorem reshuffleResolution_behavior_witness :
    reshuffleResolution reshuffledRow = some (25, 75) ∧
      reshuffleResolution zeroDenomRow = none := by
  constructor
  · have h := (reshuffleResolution_behavior reshuffledRow).1
      (by norm_num [reshuffledRow, baseRow])
    norm_num [reshuffledRow, baseRow] at h
    exact h
  · exact (reshuffleResolution_behavior zeroDenomRow).2.1 rfl

/-- `plots.py` lines 85–96: the 95% binomial confidence half-width
`1.96 * sqrt(p * (1 - p) / n) * 100` with `p = win_rate_pct / 100`,
computed only when `decisive_games > 0` and `0` otherwise. -/
noncomputable def ciHalfWidth (winRatePct n : ℝ) : ℝ :=
  if 0 < n then 1.96 * Real.sqrt (winRatePct / 100 * (1 - winRatePct / 100) / n) * 100
  else 0

/-- One entry of the Figure 1 series of `plots.py` lines 74–102: the two
win rates, the two error-bar half-widths, and whether the
missing-pairing warning was printed. -/
structure Fig1Entry where
  p1wr : ℚ
  p2wr : ℚ
  p1err : ℝ
  p2err : ℝ
  warned : Bool

/-- `plots.py` lines 74–102: extraction of one pairing's Figure 1 data.
A present row contributes its win rates and confidence half-widths; a
missing pairing contributes zeros and prints a warning, and processing
continues. -/
noncomputable def fig1Entry (rows : List ResultRow) (p1 p2 : String) : Fig1Entry :=
  match findPairing rows p1 p2 with
  | some r =>
      { p1wr := r.p1_win_rate_decisive
        p2wr := r.p2_win_rate_decisive
        p1err := ciHalfWidth (r.p1_win_rate_decisive : ℝ) (r.decisive_games : ℝ)
        p2err := ciHalfWidth (r.p2_win_rate_decisive : ℝ) (r.decisive_games : ℝ)
        warned := false }
  | none => { p1wr := 0, p2wr := 0, p1err := 0, p2err := 0, warned := true }

/-- **C5** (counterexample).  The claim says a missing strategy-pair
combination never causes a hard failure in either pipeline.  In `res.py`
SECTION 4.3.1, a missing strategic pairing is skipped without any zero
default, and with no strategic pairing present `overlaps_strategic` is
empty, so `min(overlaps_strategic)` on line 266 raises `ValueError`
(modelled by `none`): the report pipeline crashes. -/
theorem sec431_missing_rows_failure :
    overlapsStrategic [] = [] ∧ pyMin (overlapsStrategic []) = none ∧
      sec431Range [] = none :=
  ⟨rfl, rfl, rfl⟩

/-- **C5** (amended).  The chart pipeline (`plots.py` Figure 1) does
substitute zero win rates and zero error bars for a missing pairing,
sets the warning, and continues; but the report pipeline (`res.py`
4.3.1) silently skips missing pairings — a table holding only the
Bayesian self-play row contributes exactly that one overlap value, with
no zero defaults for the two missing strategic pairings. -/
theorem missingPairing_behavior :
    (∀ (rows : List ResultRow) (p1 p2 : String), findPairing rows p1 p2 = none →
        fig1Entry rows p1 p2 = ⟨0, 0, 0, 0, true⟩) ∧
    overlapsStrategic [bbRow] = [55] := by
  constructor
  · intro rows p1 p2 h
    simp [fig1Entry, h]
  · rfl

/-- **C5** (witness): the Figure 1 fallback evaluated on the empty table. -/
theorem missingPairing_behavior_witness :
    fig1Entry [] "bayesian" "greedy" = ⟨0, 0, 0, 0, true⟩ :=
  missingPairing_behavior.1 [] "bayesian" "greedy" rfl

/-- **C6** (counterexample).  The claim says the pooled win rate is `0`
when the pooled decisive total is `0`.  On a table with no Bayesian vs
Pure Random rows both pooled win sums are `0` and `res.py` line 143
computes `(0 / 0) * 100`, which under NumPy semantics is `nan`, not `0`
(only the p-value on lines 134–137 is guarded). -/
theorem pooledWinRate_zero_total_counterexample :
    pooledWinRate [] = PyFloat.nan ∧ PyFloat.nan ≠ PyFloat.finite 0 := by
  constructor
  · norm_num [pooledWinRate, totalP1Wins, totalP2Wins, bprRows, npDiv, pyMul]
  · simp

/-- **C6** (amended).  With a positive pooled decisive total the pooled
win rate is the exact `100 * wins / total`; with a zero pooled total the
unguarded division yields `nan` (no exception), while the guarded pooled
p-value is set to `1`. -/
theorem pooledWinRate_behavior (rows : List ResultRow) :
    (0 < totalP1Wins rows + totalP2Wins rows →
        pooledWinRate rows =
          PyFloat.finite
            (100 * (totalP1Wins rows : ℚ) /
              ((totalP1Wins rows : ℚ) + (totalP2Wins rows : ℚ)))) ∧
    (totalP1Wins rows + totalP2Wins rows = 0 → pooledWinRate rows = PyFloat.nan) ∧
    (totalP1Wins rows + totalP2Wins rows = 0 → pooledPValue rows = 1) := by
  refine ⟨fun h => ?_, fun h => ?_, fun h => ?_⟩
  · have h0 : (0 : ℚ) < (totalP1Wins rows : ℚ) + (totalP2Wins rows : ℚ) := by
      exact_mod_cast h
    simp only [pooledWinRate, npDiv]
    rw [if_neg h0.ne']
    simp only [pyMul]
    have harr : (totalP1Wins rows : ℚ) / ((totalP1Wins rows : ℚ) + (totalP2Wins rows : ℚ)) * 100 =
        100 * (totalP1Wins rows : ℚ) / ((totalP1Wins rows : ℚ) + (totalP2Wins rows : ℚ)) := by
      ring
    rw [harr]
  · have hw : totalP1Wins rows = 0 := by omega
    have hl : totalP2Wins rows = 0 := by omega
    simp [pooledWinRate, hw, hl, npDiv, pyMul]
  · simp [pooledPValue, h]

/-- **C6** (witness): a single Bayesian vs Pure Random row with 3 wins
and 1 loss pools to a `75%` win rate; the empty table pools to `nan`
with guarded p-value `1`. -/
theorem pooledWinRate_behavior_witness :
    pooledWinRate [bprRow] = PyFloat.finite 75 ∧
      pooledWinRate [] = PyFloat.nan ∧ pooledPValue [] = 1 := by
  refine ⟨?_, ?_, ?_⟩
  · have h := (pooledWinRate_behavior [bprRow]).1 (by norm_num [totalP1Wins, bprRows, bprRow, baseRow])
    have e1 : totalP1Wins [bprRow] = 3 := rfl
    have e2 : totalP2Wins [bprRow] = 1 := rfl
    rw [e1, e2] at h
    norm_num at h
    exact h
  · exact (pooledWinRate_behavior []).2.1 rfl
  · exact (pooledWinRate_behavior []).2.2 rfl

/-- **C7**.  For wins `w` and decisive total `n` with `0 ≤ w ≤ n` and
win-rate field `100 * w / n`, the Figure 1 confidence half-width equals
the spec's closed form `1.96 * sqrt(p * (1 - p) / n) * 100` with
`p = w / n` when `n > 0`, is `0` when `n = 0`, and is `0` whenever
`w = n` (in particular at `w = n = 100`). -/
theorem ciHalfWidth_matches_spec (w n : ℝ) (h0 : 0 ≤ w) (hwn : w ≤ n) :
    (0 < n →
        ciHalfWidth (100 * w / n) n =
          1.96 * Real.sqrt (w / n * (1 - w / n) / n) * 100) ∧
    (n = 0 → ciHalfWidth (100 * w / n) n = 0) ∧
    (w = n → ciHalfWidth (100 * w / n) n = 0) := by
  refine ⟨fun hn => ?_, fun hn => ?_, fun hw => ?_⟩
  · unfold ciHalfWidth
    rw [if_pos hn]
    have harg : 100 * w / n / 100 = w / n := by ring
    rw [harg]
  · subst hn
    simp [ciHalfWidth]
  · subst hw
    rcases eq_or_lt_of_le h0 with h | h
    · rw [← h]
      simp [ciHalfWidth]
    · unfold ciHalfWidth
      rw [if_pos h]
      have h1 : 100 * w / w / 100 = 1 := by field_simp
      rw [h1]
      norm_num [Real.sqrt_zero]

/-- **C7** (witness): Example scenario 2 — a `100%` win rate over 100
decisive games has a zero half-width. -/
theorem ciHalfWidth_matches_spec_witness : ciHalfWidth 100 100 = 0 := by
  have h := (ciHalfWidth_matches_spec 100 100 (by norm_num) le_rfl).2.2 rfl
  norm_num at h
  exact h

/-- **C8**.  The exact one-sided binomial p-value (null `p = 0.5`,
alternative greater) is monotonically non-increasing in the win count:
for `w1 ≤ w2 ≤ n`, more wins give a p-value that is no larger. -/
theorem binomPValueGreater_antitone (n w1 w2 : ℕ) (h12 : w1 ≤ w2) (h2n : w2 ≤ n) :
    binomPValueGreater w2 n ≤ binomPValueGreater w1 n := by
  unfold binomPValueGreater
  have hsub : Finset.Icc w2 n ⊆ Finset.Icc w1 n := Finset.Icc_subset_Icc h12 le_rfl
  have hs : (∑ k in Finset.Icc w2 n, (n.choose k : ℚ)) ≤
      ∑ k in Finset.Icc w1 n, (n.choose k : ℚ) :=
    Finset.sum_le_sum_of_subset_of_nonneg hsub (fun i _ _ => by positivity)
  have hp : (0 : ℚ) < 2 ^ n := by positivity
  exact (div_le_div_right hp).mpr hs

/-- **C8** (witness): with `n = 2`, two wins give a smaller-or-equal
p-value than one win. -/
theorem binomPValueGreater_antitone_witness :
    binomPValueGreater 2 2 ≤ binomPValueGreater 1 2 :=
  binomPValueGreater_antitone 2 1 2 (by norm_num) (by norm_num)

/-- `pandas` column maximum (`df[col].max()`); `none` for an empty
column (where pandas returns NaN, whose comparison with `1.0` is
false). -/
def colMax : List ℚ → Option ℚ
  | [] => none
  | x :: xs => some (xs.foldl max x)

/-- `viz.py` `load_data` (lines 13–20): if the maximum of the
`player_progress` column is ≤ 1.0, BOTH progress columns are multiplied
by 100; otherwise neither is.  The `opponent_progress` column's own
maximum is never consulted. -/
def load_data (pp op : List ℚ) : List ℚ × List ℚ :=
  match colMax pp with
  | some m =>
      if m ≤ 1 then (pp.map (fun x => x * 100), op.map (fun x => x * 100))
      else (pp, op)
  | none => (pp, op)

/-- **C9** (counterexample).  The claim says each progress field is
scaled independently, iff its own maximum is ≤ 1.0.  With
`player_progress = [1/2]` and `opponent_progress = [50]`, the
`opponent_progress` field has maximum `50 > 1` yet is multiplied by 100
anyway (producing `[5000]`), because only `player_progress`'s maximum is
consulted. -/
theorem load_data_counterexample :
    load_data [1 / 2] [50] = ([50], [5000]) ∧
      colMax [(50 : ℚ)] = some 50 ∧ ¬ ((50 : ℚ) ≤ 1) ∧
      ([(5000 : ℚ)] ≠ [(50 : ℚ)]) := by
  refine ⟨?_, rfl, by norm_num, by norm_num⟩
  norm_num [load_data, colMax]

/-- **C9** (amended).  The unit conversion in `load_data` is decided
solely by the `player_progress` column's maximum: when that maximum is
≤ 1.0 both columns are multiplied by 100, otherwise both are left
unchanged (and an empty table is left unchanged). -/
theorem load_data_scales_both_or_neither (pp op : List ℚ) :
    (∀ m : ℚ, colMax pp = some m → m ≤ 1 →
        load_data pp op = (pp.map (fun x => x * 100), op.map (fun x => x * 100))) ∧
    (∀ m : ℚ, colMax pp = some m → 1 < m → load_data pp op = (pp, op)) ∧
    (colMax pp = none → load_data pp op = (pp, op)) := by
  refine ⟨fun m hm hle => ?_, fun m hm hgt => ?_, fun hm => ?_⟩
  · simp [load_data, hm, hle]
  · simp [load_data, hm, not_le.mpr hgt]
  · simp [load_data, hm]

/-- **C9** (witness): a fractional `player_progress` column scales both
columns; a percentage-valued one scales neither. -/
theorem load_data_scales_witness :
    load_data [(1 : ℚ) / 2] [2] = ([50], [200]) ∧
      load_data [(2 : ℚ)] [1 / 2] = ([2], [1 / 2]) := by
  constructor
  · have h := (load_data_scales_both_or_neither [(1 : ℚ) / 2] [2]).1 (1 / 2) rfl (by norm_num)
    norm_num at h
    exact h
  · exact (load_data_scales_both_or_neither [(2 : ℚ)] [1 / 2]).2.1 2 rfl (by norm_num)

/-- `viz.py` `generate_summary_stats` line 301:
`((df['player_progress'] >= 70) & (df['opponent_progress'] >= 70)).sum()`. -/
def bothHighCount (rows : List (ℚ × ℚ)) : ℕ :=
  rows.countP (fun r => decide (70 ≤ r.1) && decide (70 ≤ r.2))

/-- `viz.py` line 302: both progress values below 70. -/
def bothStuckCount (rows : List (ℚ × ℚ)) : ℕ :=
  rows.countP (fun r => decide (r.1 < 70) && decide (r.2 < 70))

/-- `viz.py` line 303: player one at ≥ 70, opponent below 70. -/
def p1AheadCount (rows : List (ℚ × ℚ)) : ℕ :=
  rows.countP (fun r => decide (70 ≤ r.1) && decide (r.2 < 70))

/-- `viz.py` line 304: opponent at ≥ 70, player one below 70. -/
def p2AheadCount (rows : List (ℚ × ℚ)) : ℕ :=
  rows.countP (fun r => decide (r.1 < 70) && decide (70 ≤ r.2))

/-- The four 70%-threshold quadrant counts cover each draw-detail row
exactly once. -/
theorem quadrantSum (rows : List (ℚ × ℚ)) :
    bothHighCount rows + bothStuckCount rows + p1AheadCount rows + p2AheadCount rows =
      rows.length := by
  induction rows with
  | nil => rfl
  | cons r t ih =>
      simp only [bothHighCount, bothStuckCount, p1AheadCount, p2AheadCount,
        List.countP_cons, List.length_cons] at *
      rcases le_or_lt 70 r.1 with h1 | h1
      · rcases le_or_lt 70 r.2 with h2 | h2
        · simp only [h1, h2, not_lt.mpr h1, not_lt.mpr h2, decide_eq_true_eq,
            decide_eq_false_iff_not, if_pos, if_neg]
          simp [h1, h2, not_lt.mpr h1, not_lt.mpr h2]
          omega
        · simp [h1, h2, not_lt.mpr h1, not_le.mpr h2]
          omega
      · rcases le_or_lt 70 r.2 with h2 | h2
        · simp [h1, h2, not_le.mpr h1, not_lt.mpr h2]
          omega
        · simp [h1, h2, not_le.mpr h1, not_le.mpr h2]
          omega

/-- **C10**.  The four quadrant classifications at the 70% threshold in
`generate_summary_stats` partition the draw-detail rows: the counts sum
to the row total, and on a non-empty table the four reported
percentages sum to exactly 100%. -/
theorem quadrant_partition (rows : List (ℚ × ℚ)) (hne : rows ≠ []) :
    bothHighCount rows + bothStuckCount rows + p1AheadCount rows + p2AheadCount rows =
        rows.length ∧
    (bothHighCount rows : ℚ) / (rows.length : ℚ) * 100 +
        (bothStuckCount rows : ℚ) / (rows.length : ℚ) * 100 +
        (p1AheadCount rows : ℚ) / (rows.length : ℚ) * 100 +
        (p2AheadCount rows : ℚ) / (rows.length : ℚ) * 100 = 100 := by
  have hsum := quadrantSum rows
  refine ⟨hsum, ?_⟩
  have hL : 0 < rows.length := List.length_pos.mpr hne
  have hLq : ((rows.length : ℚ)) ≠ 0 := by
    exact_mod_cast Nat.pos_iff_ne_zero.mp hL
  have hq : (bothHighCount rows : ℚ) + (bothStuckCount rows : ℚ) +
      (p1AheadCount rows : ℚ) + (p2AheadCount rows : ℚ) = (rows.length : ℚ) := by
    exact_mod_cast hsum
  field_simp
  linarith [hq]

/-- **C10** (witness): the partition evaluated on a one-row table whose
single game has both sides at 80%. -/
theorem quadrant_partition_witness :
    bothHighCount [((80 : ℚ), (80 : ℚ))] + bothStuckCount [((80 : ℚ), (80 : ℚ))] +
        p1AheadCount [((80 : ℚ), (80 : ℚ))] + p2AheadCount [((80 : ℚ), (80 : ℚ))] = 1 ∧
    (bothHighCount [((80 : ℚ), (80 : ℚ))] : ℚ) / 1 * 100 +
        (bothStuckCount [((80 : ℚ), (80 : ℚ))] : ℚ) / 1 * 100 +
        (p1AheadCount [((80 : ℚ), (80 : ℚ))] : ℚ) / 1 * 100 +
        (p2AheadCount [((80 : ℚ), (80 : ℚ))] : ℚ) / 1 * 100 = 100 := by
  have h := quadrant_partition [((80 : ℚ), (80 : ℚ))] (by simp)
  simpa using h
